import Mathlib

/-!
Shallow embedding of the persistence and state-synchronization core of the
`astro-vite-anytime-times` notes application.

Sources embedded:
* `src/App.tsx` — in-memory log (`messages`), the seed `initialMessages`,
  the mutation handlers (`handleSendMessage`, `handleDeleteMessage`,
  `handleUpdateMessage`, `handleClearCache`), the initial `loadData` effect,
  the save-on-change effect, and `generateMarkdown`.
* `src/db.ts` (unnamed part_000) — IndexedDB adapter: `saveMessagesToDB`
  (clear the object store, then `put` every message keyed by `id`),
  `loadMessagesFromDB` (`getAll`, which returns records in ascending key
  order), `clearAllMessagesFromDB`.

Modelling conventions:
* The object store is a list of `Message` kept sorted by ascending `id`
  (IndexedDB key order); `put` overwrites an existing record with the same
  key, otherwise inserts at the key position.
* JavaScript truthiness tests are modelled explicitly: `!imagePreview`
  is true for `null` and for the empty string; `if (replyId)` is false for
  `undefined` and for `0`.
* `Date.now()` and the formatted `toLocaleTimeString` clock reading are
  parameters of the operations (they are environmental inputs).
* The React save-on-change effect runs after the synchronous code of the
  event that called `setMessages`. For mutation events the guard flag is
  stable in between, so the effect is modelled as part of the event. In
  `loadData`'s non-empty branch, `isInitialLoad.current = false` runs
  synchronously right after `setMessages(storedMessages)`, before the
  passive effect, so that effect persists the just-loaded log; in the
  empty branch the flag is cleared only after the seed save is awaited,
  so the seed render's effect is still guarded.
* `new Date(ms).toLocaleDateString("ja-JP", ...)` is modelled as the
  Gregorian civil date of the UTC day `ms / 86400000`, rendered as
  `Y年M月D日` (the ja-JP long format; no zero padding).
-/

/-- The `{name, avatar}` author record of `App.tsx`. -/
structure ChatUser where
  name : String
  avatar : String
deriving DecidableEq, Repr

/-- The `Reply` interface of `App.tsx` / `db.ts`. -/
structure Reply where
  id : Nat
  user : ChatUser
  text : String
  timestamp : String
  image : Option String := none
deriving DecidableEq, Repr

/-- The `Message` interface of `App.tsx` / `db.ts`. -/
structure Message where
  id : Nat
  user : ChatUser
  text : String
  timestamp : String
  replies : List Reply
  image : Option String := none
deriving DecidableEq, Repr

/-- The fixed seed `initialMessages` of `App.tsx` (lines 67-82). -/
def initialMessages : List Message :=
  [{ id := 1,
     user := { name := "Hello", avatar := "A" },
     text := "どこでもSlackのTimesチャンネルのようなメモが作れるWebアプリです。書き込んだ内容はキャッシュに保存するため、再度ブラウザを開いても保存されています。必要に応じてメモした内容をマークダウンに出力できます。",
     timestamp := "10:30",
     replies := [{ id := 4,
                   user := { name := "Hello", avatar := "A" },
                   text := "スレッド機能もついてます。また画像の貼り付けも可能です。ぜひ色々試してみてください！",
                   timestamp := "10:35" }] }]

/-! ## Durable Store Adapter (`db.ts`)

The IndexedDB object store `messages` is keyed by `id` (`keyPath: 'id'`).
We model its contents as a list sorted by ascending `id`. -/

/-- One `store.put(message)`: overwrite the record with the same key if
present, otherwise insert at the key position (IndexedDB keeps records in
key order). -/
def dbPut (s : List Message) (m : Message) : List Message :=
  match s with
  | [] => [m]
  | e :: rest =>
    if m.id < e.id then m :: e :: rest
    else if m.id = e.id then m :: rest
    else e :: dbPut rest m

/-- `saveMessagesToDB`: one transaction that clears the store and `put`s
every supplied message in order. -/
def replaceAllDB (l : List Message) : List Message :=
  l.foldl dbPut []

/-- `loadMessagesFromDB`: `store.getAll()` returns every record, in the
store's ascending key order. -/
def loadAllDB (store : List Message) : List Message :=
  store

/-! ## Entry Log Model: the pure content of the `App.tsx` handlers -/

/-- JavaScript truthiness of a `string | null | undefined` value:
`null`/`undefined` and the empty string are falsy. -/
def strTruthy : Option String → Bool
  | none => false
  | some s => s ≠ ""

/-- The `imagePreview || undefined` idiom: a falsy preview becomes
`undefined`. -/
def orUndefined (o : Option String) : Option String :=
  if strTruthy o then o else none

/-- JavaScript truthiness of a `number | undefined` value: `undefined`
and `0` are falsy (the `if (replyId)` tests). -/
def optNatTruthy : Option Nat → Bool
  | none => false
  | some n => n ≠ 0

/-- The `s.trim() === ""` blank test of `App.tsx`: true exactly when every
character is whitespace (an executable model of trim-to-empty). -/
def jsBlank (s : String) : Bool :=
  s.toList.all Char.isWhitespace

/-- The fixed author used for new posts in `handleSendMessage`. -/
def meUser : ChatUser := { name := "Me", avatar := "M" }

/-- `handleSendMessage` (`App.tsx` lines 233-270), as a function of the
current log and of the component state it reads (`newMessage`,
`replyingTo`, `imagePreview`) plus the clock readings `Date.now()` and the
formatted time string. Returns `none` when the handler returns early
without calling `setMessages`, otherwise `some` of the new log. -/
def handleSendMessage (messages : List Message) (newMessage : String)
    (replyingTo : Option Nat) (imagePreview : Option String)
    (now : Nat) (nowTs : String) : Option (List Message) :=
  if jsBlank newMessage ∧ ¬ strTruthy imagePreview then none
  else
    match replyingTo with
    | some target =>
      some (messages.map fun msg =>
        if msg.id = target then
          { msg with replies := msg.replies ++
              [{ id := now, user := meUser, text := newMessage,
                 timestamp := nowTs, image := orUndefined imagePreview }] }
        else msg)
    | none =>
      some (messages ++
        [{ id := now, user := meUser, text := newMessage,
           timestamp := nowTs, replies := [],
           image := orUndefined imagePreview }])

/-- `handleDeleteMessage` (`App.tsx` lines 281-303), the confirmed branch
(the `window.confirm` dialog is an environmental input; we model the
user confirming). `if (replyId)` is a truthiness test. -/
def handleDeleteMessage (messages : List Message) (messageId : Nat)
    (replyId : Option Nat) : List Message :=
  if optNatTruthy replyId then
    messages.map fun msg =>
      if msg.id = messageId then
        { msg with replies := msg.replies.filter fun r =>
            ¬ (some r.id = replyId) }
      else msg
  else
    messages.filter fun msg => ¬ (msg.id = messageId)

/-- `handleUpdateMessage` (`App.tsx` lines 314-333). Returns `none` when
the handler returns early (blank text) without calling `setMessages`,
otherwise `some` of the new log. `if (replyId)` is a truthiness test. -/
def handleUpdateMessage (messages : List Message) (id : Nat)
    (replyId : Option Nat) (text : String) : Option (List Message) :=
  if jsBlank text then none
  else
    some (messages.map fun msg =>
      if msg.id = id then
        if optNatTruthy replyId then
          { msg with replies := msg.replies.map fun reply =>
              if some reply.id = replyId then { reply with text := text }
              else reply }
        else { msg with text := text }
      else msg)

/-! ## Export Projector (`generateMarkdown`, `App.tsx` lines 176-219) -/

/-- Gregorian civil date `(year, month, day)` of day number `z` counted
from 1970-01-01 (Howard Hinnant's `civil_from_days`, specialised to
non-negative day numbers). -/
def civilFromDays (z : Nat) : Nat × Nat × Nat :=
  let z' := z + 719468
  let era := z' / 146097
  let doe := z' % 146097
  let yoe := (doe - doe / 1460 + doe / 36524 - doe / 146096) / 365
  let y := yoe + era * 400
  let doy := doe - (365 * yoe + yoe / 4 - yoe / 100)
  let mp := (5 * doy + 2) / 153
  let d := doy - (153 * mp + 2) / 5 + 1
  let m := if mp < 10 then mp + 3 else mp - 9
  (if m ≤ 2 then y + 1 else y, m, d)

/-- `new Date(ms).toLocaleDateString("ja-JP", {year: "numeric",
month: "long", day: "numeric"})`: the ja-JP long date `Y年M月D日`
(UTC day of the millisecond timestamp). -/
def formatDateJa (ms : Nat) : String :=
  let c := civilFromDays (ms / 86400000)
  toString c.1 ++ "年" ++ toString c.2.1 ++ "月" ++ toString c.2.2 ++ "日"

/-- The markdown block emitted for one reply: a level-3 heading with the
reply timestamp, the reply text, and the image reference if present. -/
def replyMd (r : Reply) : String :=
  "### " ++ r.timestamp ++ "\n" ++ r.text ++ "\n" ++
  (match r.image with
   | some img => "![画像](" ++ img ++ ")\n"
   | none => "")

/-- The markdown block emitted for one top-level message (without the day
heading): a level-2 heading `timestamp name`, the text, the image
reference if present, the reply blocks, and a trailing blank line. -/
def messageMd (msg : Message) : String :=
  "## " ++ msg.timestamp ++ " " ++ msg.user.name ++ "\n" ++
  msg.text ++ "\n" ++
  (match msg.image with
   | some img => "![画像](" ++ img ++ ")\n"
   | none => "") ++
  String.join (msg.replies.map replyMd) ++ "\n"

/-- The day heading emitted when the message's date differs from the
previous one. -/
def dayHeadingMd (msg : Message) : String :=
  "\n# " ++ formatDateJa msg.id ++ "\n\n"

/-- One iteration of the `messages.forEach` loop of `generateMarkdown`:
the accumulator is `(markdown, lastDate)`. -/
def genStep (acc : String × String) (msg : Message) : String × String :=
  let messageDate := formatDateJa msg.id
  if messageDate ≠ acc.2 then
    (acc.1 ++ dayHeadingMd msg ++ messageMd msg, messageDate)
  else
    (acc.1 ++ messageMd msg, acc.2)

/-- `generateMarkdown` (`App.tsx` lines 176-219). -/
def generateMarkdown (messages : List Message) : String :=
  (messages.foldl genStep ("", "")).1

/-! ## Synchronization Controller: sessions as a state machine

`App.tsx` owns the lifecycle: `loadData` on mount (load-or-seed),
the save-on-change effect guarded by `isInitialLoad`, and
`handleClearCache`. -/

/-- Writes issued against the durable store. -/
inductive DBWrite where
  | replaceAll (msgs : List Message)
  | clearStore
deriving DecidableEq, Repr

/-- The observable state: durable store contents, in-memory log
(`messages`), and the negation of the `isInitialLoad` guard (`ready` is
true once `loadData` has finished). -/
structure Sys where
  store : List Message
  log : List Message
  ready : Bool
deriving DecidableEq, Repr

/-- The operations the UI can trigger. `loadData` models mounting the
component (a new session over the same durable store). Mutation
operations carry the clock readings as parameters. -/
inductive Op where
  | loadData
  | clearCache
  | send (text : String) (img : Option String) (replyTo : Option Nat)
      (now : Nat) (nowTs : String)
  | deleteMsg (id : Nat) (replyId : Option Nat)
  | updateMsg (id : Nat) (replyId : Option Nat) (text : String)

/-- A handler outcome: `none` when `setMessages` was not called (no
re-render, no save effect), `some newLog` otherwise. The save-on-change
effect persists the new log only when `isInitialLoad` is already
cleared. -/
def applyMutation (s : Sys) : Option (List Message) → Sys × List DBWrite
  | none => (s, [])
  | some newLog =>
    if s.ready then
      ({ s with log := newLog, store := replaceAllDB newLog },
       [DBWrite.replaceAll newLog])
    else
      ({ s with log := newLog }, [])

/-- One UI event. `loadData`: `loadMessagesFromDB`; a non-empty result
becomes the log and, because the guard flag is cleared synchronously
before the passive `[messages]` effect runs, that effect then issues
`saveMessagesToDB(storedMessages)` — a write-back of the loaded content.
An empty result is replaced by the seed, which is persisted with the
awaited `saveMessagesToDB(initialMessages)`; the seed render's effect
fires before the flag is cleared and is guarded, so no second write.
`clearCache` (confirmed): `clearAllMessagesFromDB()` then
`setMessages([])`, whose save effect persists the empty log when the
guard is already cleared. -/
def step (s : Sys) : Op → Sys × List DBWrite
  | Op.loadData =>
    match loadAllDB s.store with
    | [] =>
      ({ store := replaceAllDB initialMessages, log := initialMessages,
         ready := true },
       [DBWrite.replaceAll initialMessages])
    | stored@(_ :: _) =>
      ({ store := replaceAllDB stored, log := stored, ready := true },
       [DBWrite.replaceAll stored])
  | Op.clearCache =>
    if s.ready then
      ({ store := replaceAllDB [], log := [], ready := s.ready },
       [DBWrite.clearStore, DBWrite.replaceAll []])
    else
      ({ store := [], log := [], ready := s.ready }, [DBWrite.clearStore])
  | Op.send t img replyTo now nowTs =>
    applyMutation s (handleSendMessage s.log t replyTo img now nowTs)
  | Op.deleteMsg i r =>
    applyMutation s (some (handleDeleteMessage s.log i r))
  | Op.updateMsg i r t =>
    applyMutation s (handleUpdateMessage s.log i r t)

/-- Run a sequence of operations, collecting every store write. -/
def run (s : Sys) : List Op → Sys × List DBWrite
  | [] => (s, [])
  | op :: ops =>
    let r := step s op
    let r' := run r.1 ops
    (r'.1, r.2 ++ r'.2)

/-- How many of the writes persist exactly the fixed seed content. -/
def countSeedWrites (ws : List DBWrite) : Nat :=
  ws.countP fun w => decide (w = DBWrite.replaceAll initialMessages)

/-! ## Helper lemmas -/

/-- Mapping an address-by-id update over a list containing no match is the
identity. -/
theorem map_if_id_eq_none {l : List Message} {rid : Nat}
    {f : Message → Message} (h : ∀ x ∈ l, x.id ≠ rid) :
    (l.map fun msg => if msg.id = rid then f msg else msg) = l := by
  induction l with
  | nil => rfl
  | cons a t ih =>
    simp only [List.map_cons]
    rw [if_neg (h a (List.mem_cons_self a t)),
      ih fun x hx => h x (List.mem_cons_of_mem a hx)]

/-- Mapping an address-by-id update over a list with exactly one match
updates only that element. -/
theorem map_if_id_eq_single {l1 l2 : List Message} {m : Message} {rid : Nat}
    {f : Message → Message} (h1 : ∀ x ∈ l1, x.id ≠ rid)
    (h2 : ∀ x ∈ l2, x.id ≠ rid) (hm : m.id = rid) :
    ((l1 ++ m :: l2).map fun msg => if msg.id = rid then f msg else msg) =
      l1 ++ f m :: l2 := by
  rw [List.map_append, List.map_cons, if_pos hm, map_if_id_eq_none h1,
    map_if_id_eq_none h2]

/-- Reply version of `map_if_id_eq_none`, with the `some reply.id = replyId`
test of `handleUpdateMessage`. -/
theorem map_if_rid_eq_none {l : List Reply} {rid : Nat}
    {f : Reply → Reply} (h : ∀ x ∈ l, x.id ≠ rid) :
    (l.map fun reply => if some reply.id = some rid then f reply else reply) =
      l := by
  induction l with
  | nil => rfl
  | cons a t ih =>
    simp only [List.map_cons]
    rw [if_neg (by simpa using h a (List.mem_cons_self a t)),
      ih fun x hx => h x (List.mem_cons_of_mem a hx)]

/-- Reply version of `map_if_id_eq_single`. -/
theorem map_if_rid_eq_single {l1 l2 : List Reply} {rep : Reply}
    {f : Reply → Reply} (h1 : ∀ x ∈ l1, x.id ≠ rep.id)
    (h2 : ∀ x ∈ l2, x.id ≠ rep.id) :
    ((l1 ++ rep :: l2).map fun reply =>
        if some reply.id = some rep.id then f reply else reply) =
      l1 ++ f rep :: l2 := by
  rw [List.map_append, List.map_cons, if_pos rfl, map_if_rid_eq_none h1,
    map_if_rid_eq_none h2]

/-! ## C1 -/

/-- C1 counterexample: initialize over a non-empty store does issue a
`replaceAll`. In `App.tsx`, `isInitialLoad.current = false` runs
synchronously right after `setMessages(storedMessages)`, before the
passive `[messages]` save effect, so the effect deterministically calls
`saveMessagesToDB(storedMessages)` — the claim's "no replaceAll is
issued" is false at this concrete non-empty store. -/
theorem loadData_nonempty_writes_back :
    (step ⟨[{ id := 10, user := meUser, text := "m", timestamp := "09:00",
              replies := [] }], [], false⟩ Op.loadData).2 =
      [DBWrite.replaceAll
        [{ id := 10, user := meUser, text := "m", timestamp := "09:00",
           replies := [] }]] ∧
    (step ⟨[{ id := 10, user := meUser, text := "m", timestamp := "09:00",
              replies := [] }], [], false⟩ Op.loadData).2 ≠ [] := by
  refine ⟨?_, ?_⟩ <;> decide

/-- C1 amended: after `loadData` (open + `loadAll`), a non-empty stored
sequence becomes the in-memory log and exactly one
`replaceAll(storedMessages)` is issued — a redundant write-back of the
just-loaded content (the guard flag is already cleared when the save
effect runs); an empty store yields the seed log, a single
`replaceAll(initialMessages)` write, and the seed consists of exactly one
welcome entry holding exactly one reply. -/
theorem loadData_load_or_seed (s : Sys) :
    (s.store ≠ [] →
      step s Op.loadData =
        ({ store := replaceAllDB s.store, log := s.store, ready := true },
         [DBWrite.replaceAll s.store])) ∧
    (s.store = [] →
      step s Op.loadData =
        ({ store := replaceAllDB initialMessages, log := initialMessages,
           ready := true },
         [DBWrite.replaceAll initialMessages]) ∧
      initialMessages.length = 1 ∧
      (initialMessages.map fun m => m.replies.length) = [1]) := by
  cases h : s.store with
  | nil =>
    refine ⟨fun hne => absurd rfl hne, fun _ => ⟨?_, rfl, rfl⟩⟩
    simp [step, loadAllDB, h]
  | cons a t =>
    refine ⟨fun _ => ?_, fun he => by cases he⟩
    simp [step, loadAllDB, h]

/-- C1 witness: the two branches evaluated at concrete stores. -/
theorem loadData_load_or_seed_witness :
    (step ⟨initialMessages, [], false⟩ Op.loadData =
      ({ store := replaceAllDB initialMessages, log := initialMessages,
         ready := true },
       [DBWrite.replaceAll initialMessages])) ∧
    (step ⟨[], [], false⟩ Op.loadData =
      ({ store := replaceAllDB initialMessages, log := initialMessages,
         ready := true },
       [DBWrite.replaceAll initialMessages])) :=
  ⟨(loadData_load_or_seed ⟨initialMessages, [], false⟩).1 (by decide),
   ((loadData_load_or_seed ⟨[], [], false⟩).2 rfl).1⟩

/-! ## C5 -/

/-- C5: while `isInitialLoad` is still set (`ready = false`), no mutation
triggers a persistence write. -/
theorem no_persist_while_loading (s : Sys) (h : s.ready = false) :
    (∀ t img rt now ts, (step s (Op.send t img rt now ts)).2 = []) ∧
    (∀ i r, (step s (Op.deleteMsg i r)).2 = []) ∧
    (∀ i r t, (step s (Op.updateMsg i r t)).2 = []) := by
  refine ⟨fun t img rt now ts => ?_, fun i r => ?_, fun i r t => ?_⟩
  · cases hm : handleSendMessage s.log t rt img now ts <;>
      simp [step, applyMutation, hm, h]
  · simp [step, applyMutation, h]
  · cases hm : handleUpdateMessage s.log i r t <;>
      simp [step, applyMutation, hm, h]

/-- C5 witness: a concrete mutation of each kind in the loading state
issues no write. -/
theorem no_persist_while_loading_witness :
    (step ⟨[], [], false⟩ (Op.send "x" none none 5 "00:00")).2 = [] ∧
    (step ⟨[], [], false⟩ (Op.deleteMsg 1 none)).2 = [] ∧
    (step ⟨[], [], false⟩ (Op.updateMsg 1 none "y")).2 = [] :=
  ⟨(no_persist_while_loading ⟨[], [], false⟩ rfl).1 "x" none none 5 "00:00",
   (no_persist_while_loading ⟨[], [], false⟩ rfl).2.1 1 none,
   (no_persist_while_loading ⟨[], [], false⟩ rfl).2.2 1 none "y"⟩

/-! ## C6 -/

/-- C6: a send with blank text and no image is a complete no-op (state
unchanged, no store interaction); a send with empty text but an image
appends exactly one entry, with the empty text and that image, at the end
of the log. -/
theorem send_validity (s : Sys) :
    (∀ t rt now ts, jsBlank t →
      step s (Op.send t none rt now ts) = (s, [])) ∧
    (∀ uri now ts, uri ≠ "" →
      (step s (Op.send "" (some uri) none now ts)).1.log =
        s.log ++ [{ id := now, user := meUser, text := "", timestamp := ts,
                    replies := [], image := some uri }]) := by
  constructor
  · intro t rt now ts ht
    simp [step, handleSendMessage, ht, strTruthy, applyMutation]
  · intro uri now ts huri
    have hs : strTruthy (some uri) = true := by simp [strTruthy, huri]
    cases hr : s.ready <;>
      simp [step, handleSendMessage, hs, orUndefined, applyMutation, hr]

/-- C6 witness: both branches at concrete inputs. -/
theorem send_validity_witness :
    (step ⟨[], initialMessages, true⟩ (Op.send "  " none none 5 "00:00") =
      (⟨[], initialMessages, true⟩, [])) ∧
    ((step ⟨[], [], true⟩
        (Op.send "" (some "data:image/png;base64,AAA") none 5 "00:00")).1.log =
      [{ id := 5, user := meUser, text := "", timestamp := "00:00",
         replies := [], image := some "data:image/png;base64,AAA" }]) :=
  ⟨(send_validity ⟨[], initialMessages, true⟩).1 "  " none 5 "00:00" (by decide),
   (send_validity ⟨[], [], true⟩).2 "data:image/png;base64,AAA" 5 "00:00"
     (by decide)⟩

/-! ## C10 -/

/-- C10: the delete and edit handlers test `replyId` for truthiness, so
`replyId = 0` behaves exactly like an absent `replyId`: delete removes the
whole top-level entry (with all its replies) and edit replaces the
top-level entry's own text; a reply whose id is 0 can never be addressed
by these operations. -/
theorem replyId_zero_truthiness (log : List Message) (i : Nat) (t : String) :
    handleDeleteMessage log i (some 0) =
      log.filter (fun m => ¬ (m.id = i)) ∧
    handleDeleteMessage log i (some 0) = handleDeleteMessage log i none ∧
    handleUpdateMessage log i (some 0) t =
      handleUpdateMessage log i none t := by
  refine ⟨?_, ?_, ?_⟩ <;> simp [handleDeleteMessage, handleUpdateMessage,
    optNatTruthy]

/-! ## C3 -/

/-- C3 counterexample: starting from an empty store, the trace
`loadData; clearCache; loadData` (initialize, clear-all, re-initialize in
a new session) writes the fixed seed content to the durable store twice;
and even without any clear, `loadData; loadData` (initialize, then reload
in a new session) also writes the seed content twice, because the second
initialize finds the store non-empty and writes back the loaded content —
which is exactly the seed. So the seed is not written at most once across
sequences of sessions, and initialize on a non-empty store can write the
seed. -/
theorem seed_written_twice :
    countSeedWrites
        (run ⟨[], [], false⟩ [Op.loadData, Op.clearCache, Op.loadData]).2 =
      2 ∧
    ¬ countSeedWrites
        (run ⟨[], [], false⟩ [Op.loadData, Op.clearCache, Op.loadData]).2 ≤
      1 ∧
    countSeedWrites (run ⟨[], [], false⟩ [Op.loadData, Op.loadData]).2 =
      2 := by
  refine ⟨?_, ?_, ?_⟩ <;> decide

/-- C3 amended: each `loadData` issues exactly one `replaceAll` — of the
seed when the store is empty, and of the loaded content when it is
non-empty (so seed content is written again whenever the store holds
exactly the seed, e.g. on the first reload after seeding); `clearCache`
itself never writes the seed content. The seed is therefore not written
at most once across sessions: clearing the store and re-initializing
seeds it again, and reloading a store that holds exactly the seed writes
the seed content back. -/
theorem seed_write_conditions (s : Sys) :
    (s.store = [] →
      (step s Op.loadData).2 = [DBWrite.replaceAll initialMessages]) ∧
    (s.store ≠ [] →
      (step s Op.loadData).2 = [DBWrite.replaceAll s.store]) ∧
    countSeedWrites (step s Op.clearCache).2 = 0 := by
  refine ⟨fun he => ?_, fun hne => ?_, ?_⟩
  · simp [step, loadAllDB, he]
  · cases h : s.store with
    | nil => exact absurd h hne
    | cons a t => simp [step, loadAllDB, h]
  · cases hr : s.ready
    all_goals simp [step, hr, countSeedWrites]
    all_goals decide

/-- C3 witness: the amended statement evaluated at concrete states. -/
theorem seed_write_conditions_witness :
    (step ⟨[], [], false⟩ Op.loadData).2 =
      [DBWrite.replaceAll initialMessages] ∧
    (step ⟨initialMessages, initialMessages, true⟩ Op.loadData).2 =
      [DBWrite.replaceAll initialMessages] :=
  ⟨(seed_write_conditions ⟨[], [], false⟩).1 rfl,
   (seed_write_conditions ⟨initialMessages, initialMessages, true⟩).2.1
     (by decide)⟩

/-! ## C2 -/

/-- A `put` of a key not present in the store is, up to order, a cons. -/
theorem dbPut_perm (s : List Message) (m : Message)
    (h : m.id ∉ s.map Message.id) : (dbPut s m).Perm (m :: s) := by
  induction s with
  | nil => simp [dbPut]
  | cons e rest ih =>
    simp only [List.map_cons, List.mem_cons, not_or] at h
    unfold dbPut
    by_cases h1 : m.id < e.id
    · rw [if_pos h1]
    · rw [if_neg h1, if_neg h.1]
      exact ((ih h.2).cons e).trans (List.Perm.swap m e rest)

/-- Folding `put` over messages with fresh, pairwise distinct ids is, up
to order, an append. -/
theorem foldl_dbPut_perm (l : List Message) : ∀ s : List Message,
    ((s ++ l).map Message.id).Nodup → (l.foldl dbPut s).Perm (s ++ l) := by
  induction l with
  | nil => intro s _; simp
  | cons m rest ih =>
    intro s h
    rw [List.map_append, List.map_cons] at h
    rcases List.nodup_append.1 h with ⟨hs, hmrest, hdisj⟩
    have hm : m.id ∉ s.map Message.id :=
      fun hmem => hdisj hmem (List.mem_cons_self _ _)
    have hput : (dbPut s m).Perm (m :: s) := dbPut_perm s m hm
    have hidperm :
        ((dbPut s m ++ rest).map Message.id).Perm
          (s.map Message.id ++ m.id :: rest.map Message.id) := by
      rw [List.map_append]
      exact ((hput.map Message.id).append_right _).trans
        List.perm_middle.symm
    have hnodup : ((dbPut s m ++ rest).map Message.id).Nodup :=
      (hidperm.nodup_iff).2 h
    have hstep : (List.foldl dbPut (dbPut s m) rest).Perm
        (dbPut s m ++ rest) := ih (dbPut s m) hnodup
    exact hstep.trans ((hput.append_right rest).trans List.perm_middle.symm)

/-- C2 amended: for any log whose entries have pairwise distinct ids,
`replaceAll` followed by `loadAll` yields the same entries up to order. -/
theorem replaceAll_loadAll_roundtrip (l : List Message)
    (h : (l.map Message.id).Nodup) :
    (loadAllDB (replaceAllDB l)).Perm l := by
  have := foldl_dbPut_perm l [] (by simpa using h)
  simpa [replaceAllDB, loadAllDB] using this

/-- C2 witness: the round-trip at a concrete two-entry log with distinct
ids. -/
theorem replaceAll_loadAll_roundtrip_witness :
    (loadAllDB (replaceAllDB
        [{ id := 7, user := meUser, text := "b", timestamp := "t1",
           replies := [] },
         { id := 3, user := meUser, text := "a", timestamp := "t0",
           replies := [] }])).Perm
      [{ id := 7, user := meUser, text := "b", timestamp := "t1",
         replies := [] },
       { id := 3, user := meUser, text := "a", timestamp := "t0",
         replies := [] }] :=
  replaceAll_loadAll_roundtrip _ (by decide)

/-- C2 counterexample: for a log with two entries sharing an id, the
round-trip loses an entry (the `put` keyed by `id` overwrites), so the
claim fails for arbitrary logs. -/
theorem replaceAll_loadAll_roundtrip_fails_on_duplicate_ids :
    ¬ (loadAllDB (replaceAllDB
        [{ id := 0, user := meUser, text := "a", timestamp := "t",
           replies := [] },
         { id := 0, user := meUser, text := "b", timestamp := "t",
           replies := [] }])).Perm
      [{ id := 0, user := meUser, text := "a", timestamp := "t",
         replies := [] },
       { id := 0, user := meUser, text := "b", timestamp := "t",
         replies := [] }] := by
  decide

/-! ## C7 -/

/-- C7 counterexample: replying to an `entryId` absent from the log does
not signal `NotFound` — the handler runs to completion and calls
`setMessages` with a log of identical content (a silent, accepted no-op;
the embedding returns `some` of the unchanged log, with no error channel
at all). -/
theorem appendReply_missing_id_is_silent :
    handleSendMessage
        [{ id := 1, user := meUser, text := "x", timestamp := "00:00",
           replies := [] }]
        "hi" (some 999) none 5 "00:05" =
      some [{ id := 1, user := meUser, text := "x", timestamp := "00:00",
              replies := [] }] ∧
    (999 : Nat) ∉
      ([{ id := 1, user := meUser, text := "x", timestamp := "00:00",
          replies := [] }] : List Message).map Message.id := by
  refine ⟨?_, ?_⟩ <;> decide

/-- C7 amended: replying to an absent `entryId` leaves the log unchanged
(a silent no-op instead of a `NotFound` signal); replying to a present
`entryId` appends the new reply at the end of that entry's replies and
replaces only that entry, leaving every other entry unchanged. -/
theorem appendReply_spec (t : String) (img : Option String) (now : Nat)
    (ts : String) (ht : ¬ jsBlank t) :
    (∀ (l : List Message) (rid : Nat), (∀ x ∈ l, x.id ≠ rid) →
      handleSendMessage l t (some rid) img now ts = some l) ∧
    (∀ (l1 l2 : List Message) (m : Message),
      (∀ x ∈ l1, x.id ≠ m.id) → (∀ x ∈ l2, x.id ≠ m.id) →
      handleSendMessage (l1 ++ m :: l2) t (some m.id) img now ts =
        some (l1 ++
          { m with replies := m.replies ++
              [{ id := now, user := meUser, text := t, timestamp := ts,
                 image := orUndefined img }] } :: l2)) := by
  constructor
  · intro l rid hnone
    unfold handleSendMessage
    rw [if_neg fun hc => ht hc.1]
    exact congrArg some (map_if_id_eq_none hnone)
  · intro l1 l2 m h1 h2
    unfold handleSendMessage
    rw [if_neg fun hc => ht hc.1]
    exact congrArg some (map_if_id_eq_single h1 h2 rfl)

/-- C7 witness: both branches at concrete inputs. -/
theorem appendReply_spec_witness :
    handleSendMessage
        [{ id := 1, user := meUser, text := "x", timestamp := "00:00",
           replies := [] }]
        "hi" (some 2) none 5 "00:05" =
      some [{ id := 1, user := meUser, text := "x", timestamp := "00:00",
              replies := [] }] ∧
    handleSendMessage
        ([] ++ { id := 1, user := meUser, text := "x", timestamp := "00:00",
                 replies := [] } :: [])
        "hi" (some 1) none 5 "00:05" =
      some ([] ++
        { id := 1, user := meUser, text := "x", timestamp := "00:00",
          replies := [{ id := 5, user := meUser, text := "hi",
                        timestamp := "00:05", image := orUndefined none }] }
          :: []) :=
  ⟨(appendReply_spec "hi" none 5 "00:05" (by decide)).1
      [{ id := 1, user := meUser, text := "x", timestamp := "00:00",
         replies := [] }] 2 (by decide),
   (appendReply_spec "hi" none 5 "00:05" (by decide)).2 [] []
      { id := 1, user := meUser, text := "x", timestamp := "00:00",
        replies := [] } (by decide) (by decide)⟩

/-! ## C8 -/

/-- C8 counterexample: editing with `replyId = 0` on an entry whose reply
has id 0 replaces the top-level entry's text and leaves the addressed
reply's text unchanged — not what the claim states (only the addressed
reply's text replaced). -/
theorem editText_replyId_zero_edits_entry :
    handleUpdateMessage
        [{ id := 1, user := meUser, text := "old", timestamp := "00:00",
           replies := [{ id := 0, user := meUser, text := "rOld",
                         timestamp := "00:01" }] }]
        1 (some 0) "new" =
      some [{ id := 1, user := meUser, text := "new", timestamp := "00:00",
              replies := [{ id := 0, user := meUser, text := "rOld",
                            timestamp := "00:01" }] }] ∧
    handleUpdateMessage
        [{ id := 1, user := meUser, text := "old", timestamp := "00:00",
           replies := [{ id := 0, user := meUser, text := "rOld",
                         timestamp := "00:01" }] }]
        1 (some 0) "new" ≠
      some [{ id := 1, user := meUser, text := "old", timestamp := "00:00",
              replies := [{ id := 0, user := meUser, text := "new",
                            timestamp := "00:01" }] }] := by
  refine ⟨?_, ?_⟩ <;> decide

/-- C8 amended: editing with blank text is a silent no-op (the handler
returns without calling `setMessages`, for any addressing); with
non-blank text, editing an entry (absent or zero `replyId`) replaces only
that entry's text, and editing a reply with a nonzero `replyId` replaces
only that reply's text — every other field, entry, reply, and all
orderings unchanged. A `replyId` of 0 addresses the entry itself
(truthiness test), not a reply. -/
theorem editText_spec :
    (∀ (log : List Message) (i : Nat) (r : Option Nat) (t : String),
      jsBlank t → handleUpdateMessage log i r t = none) ∧
    (∀ (l1 l2 : List Message) (m : Message) (t : String),
      ¬ jsBlank t → (∀ x ∈ l1, x.id ≠ m.id) → (∀ x ∈ l2, x.id ≠ m.id) →
      handleUpdateMessage (l1 ++ m :: l2) m.id none t =
        some (l1 ++ { m with text := t } :: l2)) ∧
    (∀ (l1 l2 : List Message) (m : Message) (r1 r2 : List Reply)
        (rep : Reply) (t : String),
      ¬ jsBlank t → rep.id ≠ 0 →
      (∀ x ∈ l1, x.id ≠ m.id) → (∀ x ∈ l2, x.id ≠ m.id) →
      m.replies = r1 ++ rep :: r2 →
      (∀ x ∈ r1, x.id ≠ rep.id) → (∀ x ∈ r2, x.id ≠ rep.id) →
      handleUpdateMessage (l1 ++ m :: l2) m.id (some rep.id) t =
        some (l1 ++
          { m with replies := r1 ++ { rep with text := t } :: r2 } :: l2)) := by
  refine ⟨?_, ?_, ?_⟩
  · intro log i r t hb
    unfold handleUpdateMessage
    rw [if_pos hb]
  · intro l1 l2 m t hb h1 h2
    unfold handleUpdateMessage
    rw [if_neg hb]
    rw [map_if_id_eq_single h1 h2 rfl]
    simp [optNatTruthy]
  · intro l1 l2 m r1 r2 rep t hb hrep h1 h2 hreps hr1 hr2
    unfold handleUpdateMessage
    rw [if_neg hb]
    rw [map_if_id_eq_single h1 h2 rfl]
    have htr : optNatTruthy (some rep.id) = true := by
      simp [optNatTruthy, hrep]
    rw [if_pos htr, hreps, map_if_rid_eq_single hr1 hr2]

/-- C8 witness: the three branches at concrete inputs. -/
theorem editText_spec_witness :
    handleUpdateMessage
        [{ id := 1, user := meUser, text := "x", timestamp := "00:00",
           replies := [] }] 1 none "   " = none ∧
    handleUpdateMessage
        ([] ++ { id := 1, user := meUser, text := "x", timestamp := "00:00",
                 replies := [] } :: [])
        1 none "y" =
      some ([] ++ { id := 1, user := meUser, text := "y",
                    timestamp := "00:00", replies := [] } :: []) ∧
    handleUpdateMessage
        ([] ++ { id := 1, user := meUser, text := "x", timestamp := "00:00",
                 replies := [{ id := 2, user := meUser, text := "r",
                               timestamp := "00:01" }] } :: [])
        1 (some 2) "y" =
      some ([] ++
        { id := 1, user := meUser, text := "x", timestamp := "00:00",
          replies := ([] ++ { id := 2, user := meUser, text := "y",
                              timestamp := "00:01" } :: []) } :: []) :=
  ⟨editText_spec.1
      [{ id := 1, user := meUser, text := "x", timestamp := "00:00",
         replies := [] }] 1 none "   " (by decide),
   editText_spec.2.1 [] []
      { id := 1, user := meUser, text := "x", timestamp := "00:00",
        replies := [] } "y" (by decide) (by decide) (by decide),
   editText_spec.2.2 [] []
      { id := 1, user := meUser, text := "x", timestamp := "00:00",
        replies := [{ id := 2, user := meUser, text := "r",
                      timestamp := "00:01" }] }
      [] [] { id := 2, user := meUser, text := "r", timestamp := "00:01" }
      "y" (by decide) (by decide) (by decide) (by decide) rfl
      (by decide) (by decide)⟩

/-! ## C9 -/

/-- The rendered day key is never the empty string (so the first message
of the log always emits a day heading against the initial `lastDate`). -/
theorem formatDateJa_ne_empty (ms : Nat) : formatDateJa ms ≠ "" := by
  unfold formatDateJa
  intro h
  have hlen := congrArg String.length h
  rw [String.length_append, String.length_append, String.length_append,
    String.length_append, String.length_append] at hlen
  have h1 : String.length "日" = 1 := rfl
  have h0 : String.length "" = 0 := rfl
  omega

/-- When the message's day key differs from the running `lastDate`, one
loop iteration emits the day heading followed by the message block and
updates `lastDate`. -/
theorem genStep_new_day (acc : String × String) (msg : Message)
    (h : formatDateJa msg.id ≠ acc.2) :
    genStep acc msg =
      (acc.1 ++ dayHeadingMd msg ++ messageMd msg, formatDateJa msg.id) := by
  rw [genStep, if_pos h]

/-- C9 amended: for a log of exactly two entries, listed in ascending id
order (as the app produces them), whose ids render to different day keys,
`generateMarkdown` emits two day groups in the order encountered, each
holding only its own entry: a level-1 heading with the ja-JP day key of
the group, then for each entry a level-2 heading `timestamp name` with
the body (and level-3 reply headings inside `messageMd`). -/
theorem export_two_day_groups (e1 e2 : Message) (_hle : e1.id ≤ e2.id)
    (h : formatDateJa e2.id ≠ formatDateJa e1.id) :
    generateMarkdown [e1, e2] =
      dayHeadingMd e1 ++ messageMd e1 ++ (dayHeadingMd e2 ++ messageMd e2) := by
  rw [generateMarkdown, List.foldl_cons, List.foldl_cons, List.foldl_nil]
  rw [genStep_new_day ("", "") e1 (formatDateJa_ne_empty e1.id)]
  rw [genStep_new_day _ e2 h]
  simp [String.append_assoc]

/-- C9 witness: two concrete one-line entries one day apart. -/
theorem export_two_day_groups_witness :
    generateMarkdown
        [{ id := 0, user := meUser, text := "x", timestamp := "00:00",
           replies := [] },
         { id := 86400000, user := meUser, text := "y", timestamp := "00:01",
           replies := [] }] =
      dayHeadingMd
          { id := 0, user := meUser, text := "x", timestamp := "00:00",
            replies := [] } ++
        messageMd
          { id := 0, user := meUser, text := "x", timestamp := "00:00",
            replies := [] } ++
        (dayHeadingMd
            { id := 86400000, user := meUser, text := "y",
              timestamp := "00:01", replies := [] } ++
          messageMd
            { id := 86400000, user := meUser, text := "y",
              timestamp := "00:01", replies := [] }) :=
  export_two_day_groups _ _ (by decide) (by decide)

/-- C9 counterexample: the day key is the ja-JP long date, not
`YYYY-MM-DD` (for the epoch entry it is `1970年1月1日`, not `1970-01-01`),
and for a two-entry log listed latest-first the two day groups appear in
encounter order — the later calendar day first — not in chronological
order. -/
theorem export_day_key_not_iso :
    formatDateJa 0 = "1970年1月1日" ∧
    formatDateJa 0 ≠ "1970-01-01" ∧
    generateMarkdown
        [{ id := 86400000, user := meUser, text := "y", timestamp := "00:01",
           replies := [] },
         { id := 0, user := meUser, text := "x", timestamp := "00:00",
           replies := [] }] =
      "\n# 1970年1月2日\n\n## 00:01 Me\ny\n\n\n# 1970年1月1日\n\n## 00:00 Me\nx\n\n" := by
  refine ⟨?_, ?_, ?_⟩ <;> decide
